import Mathlib

/-!
Verification development for the Aquelis water-quality app.

The definitions below are a shallow embedding of the app's core logic:
the report → problem-area aggregator and authority-verification gate
(`src/app/(tabs)/map.tsx`, and the older map-screen variant embedded in
`src/app/(tabs)/rewards.tsx`), the points/level/achievement engine
(`src/app/(tabs)/report.tsx`, `src/app/(tabs)/rewards.tsx`, and the
`UserActions` class), and the symptom checker's fallback path
(`src/app/(tabs)/symptoms.tsx`).

JavaScript numbers are modelled as `ℚ` where fractional coordinates
matter and as `ℕ` for the integer counters the code manipulates;
`Math.round` is `round` (both are floor of x + 1/2); `Math.floor(p/500)`
on a natural number is `p / 500`; `Date` values are `ℕ` timestamps.
JavaScript's insertion-ordered `Map` is an association list whose keys
are kept distinct by construction, exactly as `Map.has`/`Map.get`/
`Map.set` behave in the source.
-/

set_option maxRecDepth 4000

namespace Aquelis

/-- Report status enum (`'pending' | 'verified' | 'resolved' | 'rejected'`). -/
inductive RStatus
  | pending
  | verified
  | resolved
  | rejected
deriving DecidableEq, Repr

/-- Report/area type enum (`'contamination' | 'shortage' | 'infrastructure' | 'quality' | 'other'`). -/
inductive RType
  | contamination
  | shortage
  | infrastructure
  | quality
  | other
deriving DecidableEq, Repr

/-- Severity enum (`'low' | 'medium' | 'high' | 'critical'`). -/
inductive Severity
  | low
  | medium
  | high
  | critical
deriving DecidableEq, Repr

/-- A geographic location with fractional coordinates. -/
structure Location where
  latitude : ℚ
  longitude : ℚ
deriving DecidableEq, Repr

/-- `WaterReport` from `report.tsx` (photos kept as opaque strings). -/
structure Report where
  id : String
  type : RType
  severity : Severity
  title : String
  description : String
  location : Location
  photos : List String
  timestamp : ℕ
  status : RStatus
  reporterPoints : ℕ
  upvotes : ℕ
  downvotes : ℕ
deriving DecidableEq, Repr

/-- `ProblemArea` from `map.tsx`. -/
structure ProblemArea where
  id : String
  latitude : ℚ
  longitude : ℚ
  title : String
  description : String
  type : RType
  severity : Severity
  reportCount : ℕ
  verifiedCount : ℕ
  radius : ℕ
  isVerified : Bool
  lastUpdated : ℕ
  reports : List String
deriving DecidableEq, Repr

/-- The lowercase name a report type serializes to in template strings. -/
def typeName : RType → String
  | RType.contamination => "contamination"
  | RType.shortage => "shortage"
  | RType.infrastructure => "infrastructure"
  | RType.quality => "quality"
  | RType.other => "other"

/-- `report.type.charAt(0).toUpperCase() + report.type.slice(1)`. -/
def typeCapitalized : RType → String
  | RType.contamination => "Contamination"
  | RType.shortage => "Shortage"
  | RType.infrastructure => "Infrastructure"
  | RType.quality => "Quality"
  | RType.other => "Other"

/-- The grid-bucket key of a report:
`` `${Math.round(report.location.latitude * 1000)}_${Math.round(report.location.longitude * 1000)}` ``. -/
def bucketKey (r : Report) : String :=
  toString (round (r.location.latitude * 1000)) ++ "_" ++
    toString (round (r.location.longitude * 1000))

/-- Area id derived from the bucket key: `` `area_${key}` ``. -/
def areaId (key : String) : String := "area_" ++ key

/-- The `ProblemArea` seeded from the first report observed in a bucket
(the `else` branch of `generateProblemAreasFromReports`). -/
def seedArea (key : String) (r : Report) : ProblemArea where
  id := areaId key
  latitude := r.location.latitude
  longitude := r.location.longitude
  title := typeCapitalized r.type ++ " Issues"
  description := "Multiple reports of " ++ typeName r.type ++ " in this area"
  type := r.type
  severity := r.severity
  reportCount := 1
  verifiedCount := if r.status = RStatus.verified then 1 else 0
  radius := 200
  isVerified := false
  lastUpdated := r.timestamp
  reports := [r.id]

/-- The in-place mutation applied to an existing bucket's area
(the `then` branch of `generateProblemAreasFromReports`): count, member
list and verified count are bumped, then the radius is recomputed from
the already-incremented count. -/
def updateArea (a : ProblemArea) (r : Report) : ProblemArea :=
  let rc := a.reportCount + 1
  { a with
    reportCount := rc
    reports := a.reports ++ [r.id]
    verifiedCount := a.verifiedCount + (if r.status = RStatus.verified then 1 else 0)
    radius := min (200 + rc * 50) 1000 }

/-- One iteration of the `reports.forEach` loop over the insertion-ordered
area map: `areaMap.has(key)` is key membership, the `then` branch mutates
the entry stored under `key` in place, the `else` branch appends a fresh
entry (JavaScript `Map` preserves insertion order). -/
def processReport (m : List (String × ProblemArea)) (r : Report) :
    List (String × ProblemArea) :=
  let key := bucketKey r
  if key ∈ m.map Prod.fst then
    m.map fun p => if p.fst = key then (p.fst, updateArea p.snd r) else p
  else
    m ++ [(key, seedArea key r)]

/-- The area map built by `generateProblemAreasFromReports` after the
whole `forEach` loop. -/
def generateAreaMap (reports : List Report) : List (String × ProblemArea) :=
  reports.foldl processReport []

/-- `generateProblemAreasFromReports` as a pure function from the stored
report list to the freshly computed and persisted `ProblemArea` list
(`Array.from(areaMap.values())`). -/
def generateProblemAreasFromReports (reports : List Report) : List ProblemArea :=
  (generateAreaMap reports).map Prod.snd

/-- One aggregation run over the persisted store: the function reads
`waterReports`, recomputes every area from scratch, and overwrites the
`problemAreas` collection. The previously persisted area list is never
read by the computation, which is exactly why it appears as an unused
argument here. -/
def aggregationRun (_prevAreas : List ProblemArea) (reports : List Report) :
    List ProblemArea :=
  generateProblemAreasFromReports reports

/-- JavaScript `String.prototype.trim()`: strip whitespace from both ends.
Defined on the character list so that it evaluates on concrete strings. -/
def jsTrim (s : String) : String :=
  ⟨((s.data.dropWhile Char.isWhitespace).reverse.dropWhile Char.isWhitespace).reverse⟩

/-- `UserStats` as persisted in the `userStats` blob.  The record is the
union of the fields the different screens read and write: `report.tsx`
initialises `{points, reportsSubmitted, level, streak}`, the rewards
screen adds `totalEarned` and `achievements`, and
`checkForNewAchievements` additionally reads `healthChecks`,
`sensorsConnected` and `verifiedReports`.  Achievements are kept as
(id, unlocked) pairs. -/
structure UserStats where
  points : ℕ
  reportsSubmitted : ℕ
  level : ℕ
  streak : ℕ
  totalEarned : ℕ
  healthChecks : ℕ
  sensorsConnected : ℕ
  verifiedReports : ℕ
  achievements : List (String × Bool)
deriving DecidableEq, Repr

/-- `calculatePoints` from `report.tsx`.  The submission form only ever
passes one of the four severity values, so the enum match mirrors the
switch exactly (the `default: return 25` branch is unreachable for enum
input). -/
def calculatePoints : Severity → ℕ
  | Severity.critical => 100
  | Severity.high => 75
  | Severity.medium => 50
  | Severity.low => 25

/-- `awardPoints` from `report.tsx`: bump points, bump the submission
counter, recompute the level; `totalEarned` is not touched. -/
def awardPoints (st : UserStats) (pts : ℕ) : UserStats :=
  let p := st.points + pts
  { st with
    points := p
    reportsSubmitted := st.reportsSubmitted + 1
    level := p / 500 + 1 }

/-- `submitReport` from `report.tsx` as a pure function.  `none` models
the two validation-alert early returns (missing category/title/
description, then missing location); on success the new report is
prepended to the stored list and `awardPoints` runs with the report's
`reporterPoints`. -/
def submitReport (category : Option RType) (titleField descriptionField : String)
    (severity : Severity) (photos : List String) (loc : Option Location)
    (now : ℕ) (reports : List Report) (st : UserStats) :
    Option (Report × List Report × UserStats) :=
  match category, loc with
  | none, _ => none
  | _, none => none
  | some cat, some l =>
    if jsTrim titleField = "" ∨ jsTrim descriptionField = "" then none
    else
      let pts := calculatePoints severity
      let r : Report :=
        { id := "report_" ++ toString now
          type := cat
          severity := severity
          title := jsTrim titleField
          description := jsTrim descriptionField
          location := l
          photos := photos
          timestamp := now
          status := RStatus.pending
          reporterPoints := pts
          upvotes := 0
          downvotes := 0 }
      some (r, r :: reports, awardPoints st pts)

/-- `awardReporterPoints` from the rewards-file map screen: +25 points
and a level recomputation; `totalEarned` and `reportsSubmitted` are not
touched. -/
def awardReporterPoints (st : UserStats) : UserStats :=
  let bonusPoints := 25
  let p := st.points + bonusPoints
  { st with points := p, level := p / 500 + 1 }

/-- A catalog reward (only the fields the claim logic reads). -/
structure Reward where
  id : String
  cost : ℕ
  claimed : Bool
deriving DecidableEq, Repr

/-- `claimReward` from `rewards.tsx`: reject when points < cost,
otherwise deduct the cost (level is NOT recomputed) and mark the reward
claimed. -/
def claimReward (st : UserStats) (rewards : List Reward) (rwd : Reward) :
    Option (UserStats × List Reward) :=
  if st.points < rwd.cost then none
  else
    some ({ st with points := st.points - rwd.cost },
      rewards.map fun r => if r.id = rwd.id then { r with claimed := true } else r)

/-- A static achievement-catalog entry (id and bonus points). -/
structure AchievementDef where
  id : String
  points : ℕ
deriving DecidableEq, Repr

/-- The `ACHIEVEMENTS` catalog of `rewards.tsx`, in source order. -/
def ACHIEVEMENTS : List AchievementDef :=
  [⟨"first_report", 50⟩, ⟨"health_checker", 75⟩, ⟨"sensor_master", 100⟩,
   ⟨"community_hero", 200⟩, ⟨"streak_warrior", 150⟩, ⟨"water_guardian", 500⟩]

/-- `stats.achievements?.find(a => a.id === id)?.unlocked || false`. -/
def isUnlockedIn (achievements : List (String × Bool)) (id : String) : Bool :=
  (achievements.lookup id).getD false

/-- The `switch (achievement.id)` of `checkForNewAchievements`: note
every branch is a `>=` threshold, not an equality. -/
def shouldUnlock (st : UserStats) (id : String) : Bool :=
  if id = "first_report" then st.reportsSubmitted ≥ 1
  else if id = "health_checker" then st.healthChecks ≥ 5
  else if id = "sensor_master" then st.sensorsConnected ≥ 3
  else if id = "community_hero" then st.verifiedReports ≥ 10
  else if id = "streak_warrior" then st.streak ≥ 7
  else if id = "water_guardian" then st.level ≥ 10
  else false

/-- The achievements newly unlocked by one `checkForNewAchievements`
pass: catalog entries that are not already unlocked and whose condition
holds. -/
def newAchievements (st : UserStats) : List AchievementDef :=
  ACHIEVEMENTS.filter fun a => !isUnlockedIn st.achievements a.id && shouldUnlock st a.id

/-- The summed bonus of the newly unlocked achievements. -/
def achievementBonus (st : UserStats) : ℕ :=
  ((newAchievements st).map AchievementDef.points).sum

/-- `checkForNewAchievements` from `rewards.tsx` as a function on the
persisted stats.  When at least one achievement fires, points and
`totalEarned` both gain the summed bonus (level is NOT recomputed) and
the achievements list is rebuilt over the static catalog, keeping `true`
exactly for this round's newly unlocked entries — mirroring
`ACHIEVEMENTS.map(a => newAchievements.find(...) || a)`. -/
def checkForNewAchievements (st : UserStats) : UserStats :=
  if newAchievements st = [] then st
  else
    { st with
      points := st.points + achievementBonus st
      totalEarned := st.totalEarned + achievementBonus st
      achievements := ACHIEVEMENTS.map fun a =>
        (a.id, (newAchievements st).any fun n => n.id = a.id) }

/-- `UserActions.checkReportAchievements` (the database-backed path):
given the updated report count, unlock `first_report` only when the
count equals 1 exactly, and `community_hero` only when it equals 10
exactly.  The `DatabaseService` it calls is not part of the repository
snapshot; per the spec, `isAchievementUnlocked` is a pure read of the
per-user unlock set and `unlockAchievement` marks the id unlocked, so
the function is modelled as returning the ids it newly unlocks. -/
def checkReportAchievements (reportCount : ℕ) (unlocked : List String) : List String :=
  (if reportCount = 1 ∧ "first_report" ∉ unlocked then ["first_report"] else []) ++
    (if reportCount = 10 ∧ "community_hero" ∉ unlocked then ["community_hero"] else [])

/-- The fixed credential allow-list (identical in both map-screen
variants). -/
def AUTHORITY_SECRET_KEYS : List String :=
  ["WATER_DEPT_2024_SECURE", "MUNICIPAL_AUTH_KEY_2024", "HEALTH_DEPT_VERIFY_2024"]

/-- `AuthorityVerification` audit record; the secret key is stored
verbatim (untrimmed), as in the source. -/
structure AuthorityVerification where
  areaId : String
  secretKey : String
  officialName : String
  department : String
  timestamp : ℕ
deriving DecidableEq, Repr

/-- The verification modal's form fields. -/
structure VerificationForm where
  secretKey : String
  officialName : String
  department : String
deriving DecidableEq, Repr

/-- The persisted collections `verifyArea` touches, plus the user stats
blob (only the rewards-file variant writes it). -/
structure StoreState where
  problemAreas : List ProblemArea
  verifications : List AuthorityVerification
  userStats : UserStats
deriving DecidableEq, Repr

/-- The four observable outcomes of a `verifyArea` call: silent return
without a selected area, the "Incomplete Form" alert, the "Invalid
Secret Key" alert, and the success path. -/
inductive VerifyResult
  | noSelection
  | incompleteForm
  | invalidKey
  | success
deriving DecidableEq, Repr

/-- `problemAreas.map(...)` on success: flip `isVerified` and stamp
`lastUpdated` on the area with the selected id. -/
def markVerified (areas : List ProblemArea) (targetId : String) (now : ℕ) :
    List ProblemArea :=
  areas.map fun a =>
    if a.id = targetId then { a with isVerified := true, lastUpdated := now } else a

/-- `verifyArea` from `map.tsx`: validate the form, check the trimmed
secret key against the allow-list, and on success persist the updated
area list and append an audit record.  This variant never touches
`userStats` — it awards no points. -/
def verifyAreaMap (sel : Option ProblemArea) (form : VerificationForm)
    (st : StoreState) (now : ℕ) : VerifyResult × StoreState :=
  match sel with
  | none => (VerifyResult.noSelection, st)
  | some area =>
    if jsTrim form.secretKey = "" ∨ jsTrim form.officialName = "" ∨
        jsTrim form.department = "" then
      (VerifyResult.incompleteForm, st)
    else if jsTrim form.secretKey ∉ AUTHORITY_SECRET_KEYS then
      (VerifyResult.invalidKey, st)
    else
      (VerifyResult.success,
        { st with
          problemAreas := markVerified st.problemAreas area.id now
          verifications := st.verifications ++
            [{ areaId := area.id, secretKey := form.secretKey,
               officialName := form.officialName, department := form.department,
               timestamp := now }] })

/-- `verifyArea` from the rewards-file map screen: identical gate and
persistence, but the success path additionally runs
`awardReporterPoints` on the stats blob. -/
def verifyAreaRewards (sel : Option ProblemArea) (form : VerificationForm)
    (st : StoreState) (now : ℕ) : VerifyResult × StoreState :=
  match sel with
  | none => (VerifyResult.noSelection, st)
  | some area =>
    if jsTrim form.secretKey = "" ∨ jsTrim form.officialName = "" ∨
        jsTrim form.department = "" then
      (VerifyResult.incompleteForm, st)
    else if jsTrim form.secretKey ∉ AUTHORITY_SECRET_KEYS then
      (VerifyResult.invalidKey, st)
    else
      (VerifyResult.success,
        { st with
          problemAreas := markVerified st.problemAreas area.id now
          verifications := st.verifications ++
            [{ areaId := area.id, secretKey := form.secretKey,
               officialName := form.officialName, department := form.department,
               timestamp := now }]
          userStats := awardReporterPoints st.userStats })

/-- Symptom severity enum of `SYMPTOMS_LIST` in `symptoms.tsx`. -/
inductive SymSeverity
  | mild
  | moderate
  | severe
deriving DecidableEq, Repr

/-- `SYMPTOMS_LIST` from `symptoms.tsx`, reduced to the (id, severity)
pairs the matcher logic would consume, in source order. -/
def SYMPTOMS_LIST : List (String × SymSeverity) :=
  [("severe_diarrhea", SymSeverity.severe), ("vomiting", SymSeverity.moderate),
   ("nausea", SymSeverity.mild), ("stomach_pain", SymSeverity.moderate),
   ("stomach_cramps", SymSeverity.moderate), ("high_fever", SymSeverity.severe),
   ("fever", SymSeverity.moderate), ("headache", SymSeverity.mild),
   ("fatigue", SymSeverity.mild), ("weakness", SymSeverity.moderate),
   ("dehydration", SymSeverity.severe), ("muscle_cramps", SymSeverity.moderate),
   ("rapid_heartbeat", SymSeverity.severe), ("loss_appetite", SymSeverity.mild),
   ("jaundice", SymSeverity.severe), ("dark_urine", SymSeverity.moderate),
   ("loose_stools", SymSeverity.mild), ("gas", SymSeverity.mild),
   ("rash", SymSeverity.mild), ("joint_pain", SymSeverity.moderate),
   ("chills", SymSeverity.moderate), ("dizziness", SymSeverity.moderate),
   ("constipation", SymSeverity.mild), ("bloating", SymSeverity.mild)]

/-- Risk levels of an assessment. -/
inductive RiskLevel
  | low
  | medium
  | high
deriving DecidableEq, Repr

/-- One candidate condition of an assessment (name, probability,
severity label). -/
structure FallbackCondition where
  name : String
  probability : ℕ
  severity : String
deriving DecidableEq, Repr

/-- The structured part of an `AIHealthAssessment` that the claims are
about; the remedy/advice fields are constant string lists with no
bearing on them and are omitted. -/
structure Assessment where
  possibleConditions : List FallbackCondition
  riskLevel : RiskLevel
deriving DecidableEq, Repr

/-- The questionnaire accompanying a symptom check. -/
structure SymptomQuestionnaire where
  duration : String
  severity : String
  waterExposure : String
  recentTravel : String
  additionalInfo : String
deriving DecidableEq, Repr

/-- The assessment returned by the `catch` branch of `callOpenAI` in
`symptoms.tsx`: a fixed record with two hard-coded conditions and
`riskLevel: 'medium'`. -/
def fallbackAssessment : Assessment where
  possibleConditions :=
    [{ name := "Water-borne Gastrointestinal Infection", probability := 75,
       severity := "medium" },
     { name := "Acute Gastroenteritis", probability := 60, severity := "medium" }]
  riskLevel := RiskLevel.medium

/-- The fallback path of `callOpenAI` (taken whenever the external
request throws or the API key is unusable): the result is
`fallbackAssessment` regardless of the selected symptoms or the
questionnaire, which therefore appear as unused arguments. -/
def callOpenAIFallback (_symptoms : List String)
    (_questionnaire : SymptomQuestionnaire) : Assessment :=
  fallbackAssessment

/-- Modelled from the spec: the per-symptom severity weight of spec
section 4.4 step 3 (severe=3, moderate=2, mild=1).  No rule-based
matcher exists in the source; this spec-side definition exists only to
compare the claimed algorithm's output with the code's fallback. -/
def spec_severityWeight : SymSeverity → ℕ
  | SymSeverity.severe => 3
  | SymSeverity.moderate => 2
  | SymSeverity.mild => 1

/-- Modelled from the spec: weight of one selected symptom id, looked up
in the source's symptom catalog. -/
def spec_symptomWeight (id : String) : ℕ :=
  match SYMPTOMS_LIST.lookup id with
  | some s => spec_severityWeight s
  | none => 0

/-- Modelled from the spec: the risk level the claimed algorithm assigns
to a selected symptom set (average weight ≥ 5/2 → high, ≥ 3/2 → medium,
else low). -/
def spec_riskLevel (symptoms : List String) : RiskLevel :=
  let avg : ℚ := ((symptoms.map spec_symptomWeight).sum : ℚ) / (symptoms.length : ℚ)
  if avg ≥ 5/2 then RiskLevel.high
  else if avg ≥ 3/2 then RiskLevel.medium
  else RiskLevel.low

/-! ### Derived quantities and the aggregation invariant -/

/-- The stored reports that fall in bucket `k`. -/
def bucketReports (reports : List Report) (k : String) : List Report :=
  reports.filter fun r => bucketKey r = k

/-- Number of stored reports in bucket `k`. -/
def bucketCount (reports : List Report) (k : String) : ℕ :=
  (bucketReports reports k).length

/-- Number of stored reports in bucket `k` whose status is verified. -/
def verifiedBucketCount (reports : List Report) (k : String) : ℕ :=
  ((bucketReports reports k).filter fun r => r.status = RStatus.verified).length

/-- The radius the aggregator assigns to a bucket, as a function of its
report count: the seeded value 200 for a single report, and
`min(200 + count*50, 1000)` once at least one more report lands. -/
def radiusOfCount (n : ℕ) : ℕ :=
  if n = 1 then 200 else min (200 + n * 50) 1000

/-- Invariant tying the in-progress area map to the prefix of reports
already folded: the processed reports' buckets are all present, and each
map entry carries the exact counts of its bucket, a fresh (unverified)
flag, and the radius determined by its count. -/
def AreaMapInv (processed : List Report) (m : List (String × ProblemArea)) : Prop :=
  (∀ r ∈ processed, bucketKey r ∈ m.map Prod.fst) ∧
    ∀ p ∈ m,
      p.2.id = areaId p.1 ∧
      p.2.reportCount = bucketCount processed p.1 ∧
      p.2.verifiedCount = verifiedBucketCount processed p.1 ∧
      p.2.reports.length = p.2.reportCount ∧
      1 ≤ p.2.reportCount ∧
      p.2.radius = radiusOfCount p.2.reportCount ∧
      p.2.isVerified = false

/-! ### Concrete sample data (used by witnesses and counterexamples) -/

/-- A sample contamination report at Connaught Place (28.6139, 77.2090),
mirroring the first sample report seeded by `report.tsx`. -/
def rpt1 : Report where
  id := "report_001"
  type := RType.contamination
  severity := Severity.high
  title := "Sewage leak near water source"
  description := "Sewage leak contaminating the local water supply"
  location := { latitude := 286139/10000, longitude := 77209/1000 }
  photos := []
  timestamp := 100
  status := RStatus.pending
  reporterPoints := 50
  upvotes := 12
  downvotes := 1

/-- A second, verified report at (28.6140, 77.2091): same 3-decimal grid
bucket as `rpt1`. -/
def rpt2 : Report :=
  { rpt1 with
    id := "report_002"
    status := RStatus.verified
    location := { latitude := 28614/1000, longitude := 772091/10000 } }

/-- The area the aggregator produces for the two-report bucket. -/
def areaAgg : ProblemArea := updateArea (seedArea "28614_77209" rpt1) rpt2

/-- The area seeded from `rpt1` alone. -/
def areaSample : ProblemArea := seedArea "28614_77209" rpt1

/-- `areaSample` as previously persisted after an authority verified it. -/
def areaVerified : ProblemArea := { areaSample with isVerified := true }

/-- A fresh stats record as `report.tsx` initialises it. -/
def statsZero : UserStats where
  points := 0
  reportsSubmitted := 0
  level := 1
  streak := 0
  totalEarned := 0
  healthChecks := 0
  sensorsConnected := 0
  verifiedReports := 0
  achievements := []

/-- Stats sitting exactly at the level-2 boundary (500 points). -/
def st500 : UserStats := { statsZero with points := 500, level := 2 }

/-- Stats whose submission counter jumped straight from 0 to 2. -/
def stats2 : UserStats := { statsZero with reportsSubmitted := 2 }

/-- The grocery-voucher catalog reward (cost 400). -/
def rewardT : Reward := ⟨"grocery_voucher", 400, false⟩

/-- A fully filled verification form with a whitelisted key. -/
def formGood : VerificationForm :=
  ⟨"WATER_DEPT_2024_SECURE", "Asha Rao", "Water Department"⟩

/-- A verification form whose secret key is empty. -/
def formEmptyKey : VerificationForm := ⟨"", "Asha Rao", "Water Department"⟩

/-- A store holding the one sample area and fresh stats. -/
def storeSample : StoreState := ⟨[areaSample], [], statsZero⟩

/-- A sample filled questionnaire. -/
def q0 : SymptomQuestionnaire := ⟨"2 days", "moderate", "yes", "no", "none"⟩

/-- The report a concrete successful submission produces. -/
def subR : Report where
  id := "report_42"
  type := RType.quality
  severity := Severity.low
  title := "Bad taste"
  description := "Cloudy water"
  location := { latitude := 286139/10000, longitude := 77209/1000 }
  photos := []
  timestamp := 42
  status := RStatus.pending
  reporterPoints := 25
  upvotes := 0
  downvotes := 0

/-! ### Aggregation invariant lemmas -/

lemma bucketCount_append_single (reports : List Report) (r : Report) (k : String) :
    bucketCount (reports ++ [r]) k =
      bucketCount reports k + (if bucketKey r = k then 1 else 0) := by
  simp only [bucketCount, bucketReports, List.filter_append, List.length_append]
  by_cases h : bucketKey r = k <;> simp [h, List.filter]

lemma verifiedBucketCount_append_single (reports : List Report) (r : Report) (k : String) :
    verifiedBucketCount (reports ++ [r]) k =
      verifiedBucketCount reports k +
        (if bucketKey r = k ∧ r.status = RStatus.verified then 1 else 0) := by
  simp only [verifiedBucketCount, bucketReports, List.filter_append, List.length_append]
  by_cases h : bucketKey r = k
  · by_cases h' : r.status = RStatus.verified <;> simp [h, h', List.filter]
  · simp [h, List.filter]

lemma map_fst_pointUpdate (m : List (String × ProblemArea)) (key : String) (r : Report) :
    (m.map fun p => if p.1 = key then (p.1, updateArea p.2 r) else p).map Prod.fst =
      m.map Prod.fst := by
  induction m with
  | nil => rfl
  | cons q m ih => by_cases h : q.1 = key <;> simp [h, ih]

lemma radiusOfCount_succ (n : ℕ) (h : 1 ≤ n) :
    radiusOfCount (n + 1) = min (200 + (n + 1) * 50) 1000 := by
  have : n + 1 ≠ 1 := by omega
  simp [radiusOfCount, this]

lemma areaMapInv_processReport (processed : List Report)
    (m : List (String × ProblemArea)) (r : Report) (h : AreaMapInv processed m) :
    AreaMapInv (processed ++ [r]) (processReport m r) := by
  obtain ⟨hcov, hmem⟩ := h
  unfold processReport
  by_cases hk : bucketKey r ∈ m.map Prod.fst
  · simp only [if_pos hk]
    refine ⟨?_, ?_⟩
    · intro r' hr'
      rw [map_fst_pointUpdate]
      rcases List.mem_append.1 hr' with h' | h'
      · exact hcov r' h'
      · have : r' = r := by simpa using h'
        subst this
        exact hk
    · intro p hp
      obtain ⟨q, hq, hfq⟩ := List.mem_map.1 hp
      obtain ⟨hid, hrc, hvc, hlen, hone, hrad, hver⟩ := hmem q hq
      by_cases hqk : q.1 = bucketKey r
      · have hp_eq : p = (q.1, updateArea q.2 r) := by rw [← hfq]; simp [hqk]
        subst hp_eq
        refine ⟨hid, ?_, ?_, ?_, by simp [updateArea], ?_,
          by simpa [updateArea] using hver⟩
        · rw [bucketCount_append_single]
          simp [updateArea, hrc, hqk]
        · rw [verifiedBucketCount_append_single]
          by_cases hv : r.status = RStatus.verified <;>
            simp [updateArea, hvc, hqk, hv]
        · simp [updateArea, hlen]
        · have hne : q.2.reportCount + 1 ≠ 1 := by omega
          simp [updateArea, radiusOfCount, hne]
      · have hp_eq : p = q := by rw [← hfq]; simp [hqk]
        subst hp_eq
        have hne : ¬ bucketKey r = p.1 := fun hc => hqk hc.symm
        refine ⟨hid, ?_, ?_, hlen, hone, hrad, hver⟩
        · rw [bucketCount_append_single]
          simp [hrc, hne]
        · rw [verifiedBucketCount_append_single]
          simp [hvc, hne]
  · simp only [if_neg hk]
    have hzero : bucketCount processed (bucketKey r) = 0 := by
      by_contra hnz
      have : ∃ r' ∈ processed, bucketKey r' = bucketKey r := by
        rcases List.exists_mem_of_length_pos (l := bucketReports processed (bucketKey r))
          (Nat.pos_of_ne_zero hnz) with ⟨r', hr'⟩
        exact ⟨r', (List.mem_filter.1 hr').1, by simpa using (List.mem_filter.1 hr').2⟩
      rcases this with ⟨r', hr', hbk⟩
      exact hk (hbk ▸ hcov r' hr')
    have hvzero : verifiedBucketCount processed (bucketKey r) = 0 := by
      have hle : verifiedBucketCount processed (bucketKey r) ≤
          bucketCount processed (bucketKey r) :=
        List.length_filter_le _ _
      omega
    refine ⟨?_, ?_⟩
    · intro r' hr'
      rcases List.mem_append.1 hr' with h' | h'
      · simp only [List.map_append]
        exact List.mem_append.2 (Or.inl (hcov r' h'))
      · have : r' = r := by simpa using h'
        subst this
        simp
    · intro p hp
      rcases List.mem_append.1 hp with h' | h'
      · obtain ⟨hid, hrc, hvc, hlen, hone, hrad, hver⟩ := hmem p h'
        have hne : ¬ bucketKey r = p.1 := by
          intro hc
          exact hk (hc ▸ List.mem_map.2 ⟨p, h', rfl⟩)
        refine ⟨hid, ?_, ?_, hlen, hone, hrad, hver⟩
        · rw [bucketCount_append_single]
          simp [hrc, hne]
        · rw [verifiedBucketCount_append_single]
          simp [hvc, hne]
      · have hp_eq : p = (bucketKey r, seedArea (bucketKey r) r) := by simpa using h'
        subst hp_eq
        refine ⟨rfl, ?_, ?_, ?_, ?_, ?_, rfl⟩
        · rw [bucketCount_append_single]
          simp [seedArea, hzero]
        · rw [verifiedBucketCount_append_single]
          by_cases hv : r.status = RStatus.verified <;> simp [seedArea, hvzero, hv]
        · simp [seedArea]
        · simp [seedArea]
        · simp [seedArea, radiusOfCount]

lemma areaMapInv_foldl (rest : List Report) :
    ∀ (processed : List Report) (m : List (String × ProblemArea)),
      AreaMapInv processed m →
      AreaMapInv (processed ++ rest) (rest.foldl processReport m) := by
  induction rest with
  | nil => intro processed m h; simpa using h
  | cons r rest ih =>
    intro processed m h
    have h1 := areaMapInv_processReport processed m r h
    have h2 := ih (processed ++ [r]) (processReport m r) h1
    simpa using h2

lemma areaMapInv_generate (reports : List Report) :
    AreaMapInv reports (generateAreaMap reports) := by
  have h0 : AreaMapInv [] [] := by
    constructor
    · intro r hr; simp at hr
    · intro p hp; simp at hp
  simpa [generateAreaMap] using areaMapInv_foldl reports [] [] h0

/-- Every area in the aggregator's output is described by the invariant:
its id names its bucket, its counts are the bucket's counts, its radius
is determined by the count, and its authority flag is freshly false. -/
lemma mem_generate_facts (reports : List Report) (a : ProblemArea)
    (h : a ∈ generateProblemAreasFromReports reports) :
    ∃ k, a.id = areaId k ∧
      a.reportCount = bucketCount reports k ∧
      a.verifiedCount = verifiedBucketCount reports k ∧
      a.reports.length = a.reportCount ∧
      1 ≤ a.reportCount ∧
      a.radius = radiusOfCount a.reportCount ∧
      a.isVerified = false := by
  obtain ⟨p, hp, hpa⟩ := List.mem_map.1 h
  obtain ⟨hid, hrc, hvc, hlen, hone, hrad, hver⟩ :=
    (areaMapInv_generate reports).2 p hp
  exact ⟨p.1, hpa ▸ ⟨hid, hrc, hvc, hlen, hone, hrad, hver⟩⟩

lemma radiusOfCount_mono (m n : ℕ) (h : m ≤ n) :
    radiusOfCount m ≤ radiusOfCount n := by
  unfold radiusOfCount
  rcases Nat.le_total (200 + m * 50) 1000 with hm | hm <;>
    rcases Nat.le_total (200 + n * 50) 1000 with hn | hn <;>
      split_ifs <;>
        simp [Nat.min_def, hm, hn] <;> omega

/-! ### Claim theorems -/

/-- C1: an aggregation run recomputes every area with `isVerified=false`
and persists that, so an area previously persisted with
`isVerified=true` comes out of the very same run — same id, bigger
bucket — with `isVerified=false`.  This evaluates the code at the
failing input of the claim: the carry-over the spec requires does not
happen. -/
theorem c1_aggregation_resets_isVerified :
    areaVerified.isVerified = true ∧
    areaVerified.id = "area_28614_77209" ∧
    (aggregationRun [areaVerified] [rpt1, rpt2]).map (fun a => (a.id, a.isVerified)) =
      [("area_28614_77209", false)] := by
  refine ⟨rfl, rfl, ?_⟩
  with_unfolding_all decide

/-- C2 counterexample: a bucket with exactly one report gets radius 200,
not `min(200 + 50*1, 1000) = 250`, so the claimed formula fails at
`n = 1`. -/
theorem c2_counterexample :
    (generateProblemAreasFromReports [rpt1]).map
      (fun a => (a.reportCount, a.radius)) = [(1, 200)] ∧
    (200 : ℕ) ≠ min (200 + 1 * 50) 1000 := by
  refine ⟨?_, by decide⟩
  with_unfolding_all decide

/-- C2 (amended): every produced area's report count is exactly its
bucket's report count; the radius is 200 for a one-report bucket and
`min(200 + 50*n, 1000)` for `n ≥ 2`; and the radius, as a function of
the count, never decreases. -/
theorem c2_radius_formula (reports : List Report) (a : ProblemArea)
    (h : a ∈ generateProblemAreasFromReports reports) :
    (∃ k, a.id = areaId k ∧ a.reportCount = bucketCount reports k) ∧
    (a.reportCount = 1 → a.radius = 200) ∧
    (2 ≤ a.reportCount → a.radius = min (200 + a.reportCount * 50) 1000) ∧
    ∀ m n : ℕ, m ≤ n → radiusOfCount m ≤ radiusOfCount n := by
  obtain ⟨k, hid, hrc, _, _, _, hrad, _⟩ := mem_generate_facts reports a h
  refine ⟨⟨k, hid, hrc⟩, ?_, ?_, radiusOfCount_mono⟩
  · intro h1
    rw [hrad, h1]
    rfl
  · intro h2
    have hne : a.reportCount ≠ 1 := by omega
    rw [hrad]
    simp [radiusOfCount, hne]

/-- C2 witness: the amended statement instantiated on the concrete
two-report bucket. -/
theorem c2_radius_formula_witness :
    areaAgg ∈ generateProblemAreasFromReports [rpt1, rpt2] ∧
    ((∃ k, areaAgg.id = areaId k ∧ areaAgg.reportCount = bucketCount [rpt1, rpt2] k) ∧
     (areaAgg.reportCount = 1 → areaAgg.radius = 200) ∧
     (2 ≤ areaAgg.reportCount → areaAgg.radius = min (200 + areaAgg.reportCount * 50) 1000) ∧
     ∀ m n : ℕ, m ≤ n → radiusOfCount m ≤ radiusOfCount n) := by
  have hbk1 : bucketKey rpt1 = "28614_77209" := by with_unfolding_all decide
  have hbk2 : bucketKey rpt2 = "28614_77209" := by with_unfolding_all decide
  have hgen : generateProblemAreasFromReports [rpt1, rpt2] = [areaAgg] := by
    simp [generateProblemAreasFromReports, generateAreaMap, processReport,
      hbk1, hbk2, areaAgg]
  have hmem : areaAgg ∈ generateProblemAreasFromReports [rpt1, rpt2] := by
    rw [hgen]; exact List.mem_singleton_self areaAgg
  exact ⟨hmem, c2_radius_formula [rpt1, rpt2] areaAgg hmem⟩

/-- C9: every area any aggregation run produces has
`verifiedCount ≤ reportCount`; moreover both counts are exactly the
bucket's total and verified-member counts. -/
theorem c9_verified_le_reportCount (reports : List Report) (a : ProblemArea)
    (h : a ∈ generateProblemAreasFromReports reports) :
    a.verifiedCount ≤ a.reportCount ∧
    ∃ k, a.id = areaId k ∧ a.reportCount = bucketCount reports k ∧
      a.verifiedCount = verifiedBucketCount reports k := by
  obtain ⟨k, hid, hrc, hvc, _, _, _, _⟩ := mem_generate_facts reports a h
  refine ⟨?_, k, hid, hrc, hvc⟩
  rw [hrc, hvc]
  exact List.length_filter_le _ _

/-- C9 witness: the statement instantiated on the concrete two-report
bucket (one member verified). -/
theorem c9_verified_le_reportCount_witness :
    areaAgg ∈ generateProblemAreasFromReports [rpt1, rpt2] ∧
    (areaAgg.verifiedCount ≤ areaAgg.reportCount ∧
     ∃ k, areaAgg.id = areaId k ∧ areaAgg.reportCount = bucketCount [rpt1, rpt2] k ∧
       areaAgg.verifiedCount = verifiedBucketCount [rpt1, rpt2] k) := by
  have hbk1 : bucketKey rpt1 = "28614_77209" := by with_unfolding_all decide
  have hbk2 : bucketKey rpt2 = "28614_77209" := by with_unfolding_all decide
  have hgen : generateProblemAreasFromReports [rpt1, rpt2] = [areaAgg] := by
    simp [generateProblemAreasFromReports, generateAreaMap, processReport,
      hbk1, hbk2, areaAgg]
  have hmem : areaAgg ∈ generateProblemAreasFromReports [rpt1, rpt2] := by
    rw [hgen]; exact List.mem_singleton_self areaAgg
  exact ⟨hmem, c9_verified_le_reportCount [rpt1, rpt2] areaAgg hmem⟩

/-- C3 counterexample: with a selected area and non-empty trimmed
officialName and department, the empty secret key — which is not in the
allow-list — is rejected with the incomplete-form reason, not the
invalid-credential reason the claim asserts for every non-whitelisted
key.  Persisted state is still untouched. -/
theorem c3_counterexample :
    verifyAreaMap (some areaSample) formEmptyKey storeSample 7 =
      (VerifyResult.incompleteForm, storeSample) ∧
    VerifyResult.incompleteForm ≠ VerifyResult.invalidKey ∧
    jsTrim formEmptyKey.officialName ≠ "" ∧
    jsTrim formEmptyKey.department ≠ "" ∧
    jsTrim formEmptyKey.secretKey ∉ AUTHORITY_SECRET_KEYS := by
  refine ⟨rfl, by decide, by decide, by decide, by decide⟩

/-- C3 (amended): with a selected area and non-empty trimmed
officialName and department, the call succeeds iff the trimmed secret
key is one of the three allow-list strings; a key whose trim is
non-empty and not whitelisted gets the invalid-credential outcome, a key
trimming to empty gets the incomplete-form outcome, and every
non-success outcome leaves the store untouched. -/
theorem c3_gate_exactness (area : ProblemArea) (form : VerificationForm)
    (st : StoreState) (now : ℕ)
    (hname : jsTrim form.officialName ≠ "") (hdept : jsTrim form.department ≠ "") :
    ((verifyAreaMap (some area) form st now).1 = VerifyResult.success ↔
      jsTrim form.secretKey ∈ AUTHORITY_SECRET_KEYS) ∧
    (jsTrim form.secretKey ≠ "" → jsTrim form.secretKey ∉ AUTHORITY_SECRET_KEYS →
      verifyAreaMap (some area) form st now = (VerifyResult.invalidKey, st)) ∧
    (jsTrim form.secretKey = "" →
      verifyAreaMap (some area) form st now = (VerifyResult.incompleteForm, st)) ∧
    ((verifyAreaMap (some area) form st now).1 ≠ VerifyResult.success →
      (verifyAreaMap (some area) form st now).2 = st) := by
  by_cases hkey : jsTrim form.secretKey = ""
  · have hnotm : jsTrim form.secretKey ∉ AUTHORITY_SECRET_KEYS := by
      rw [hkey]; decide
    have hrun : verifyAreaMap (some area) form st now =
        (VerifyResult.incompleteForm, st) := by
      simp [verifyAreaMap, hkey]
    rw [hrun]
    exact ⟨⟨fun h => by simp at h, fun h => absurd h hnotm⟩,
      fun hne _ => absurd hkey hne, fun _ => rfl, fun _ => rfl⟩
  · by_cases hmem : jsTrim form.secretKey ∈ AUTHORITY_SECRET_KEYS
    · have hrun1 : (verifyAreaMap (some area) form st now).1 = VerifyResult.success := by
        simp [verifyAreaMap, hkey, hname, hdept, hmem]
      exact ⟨⟨fun _ => hmem, fun _ => hrun1⟩,
        fun _ hnm => absurd hmem hnm, fun he => absurd he hkey,
        fun hns => absurd hrun1 hns⟩
    · have hrun : verifyAreaMap (some area) form st now =
          (VerifyResult.invalidKey, st) := by
        simp [verifyAreaMap, hkey, hname, hdept, hmem]
      rw [hrun]
      exact ⟨⟨fun h => by simp at h, fun h => absurd h hmem⟩,
        fun _ _ => rfl, fun he => absurd he hkey, fun _ => rfl⟩

/-- C3 witness: the amended statement instantiated on a filled form
carrying the first whitelisted key. -/
theorem c3_gate_exactness_witness :
    (jsTrim formGood.officialName ≠ "" ∧ jsTrim formGood.department ≠ "") ∧
    (((verifyAreaMap (some areaSample) formGood storeSample 9).1 =
        VerifyResult.success ↔
      jsTrim formGood.secretKey ∈ AUTHORITY_SECRET_KEYS) ∧
     (jsTrim formGood.secretKey ≠ "" →
       jsTrim formGood.secretKey ∉ AUTHORITY_SECRET_KEYS →
       verifyAreaMap (some areaSample) formGood storeSample 9 =
         (VerifyResult.invalidKey, storeSample)) ∧
     (jsTrim formGood.secretKey = "" →
       verifyAreaMap (some areaSample) formGood storeSample 9 =
         (VerifyResult.incompleteForm, storeSample)) ∧
     ((verifyAreaMap (some areaSample) formGood storeSample 9).1 ≠
        VerifyResult.success →
       (verifyAreaMap (some areaSample) formGood storeSample 9).2 = storeSample)) :=
  ⟨⟨by decide, by decide⟩,
   c3_gate_exactness areaSample formGood storeSample 9 (by decide) (by decide)⟩

/-- C4 counterexample: a successful `verifyArea` call of the `map.tsx`
variant leaves the persisted stats' points unchanged at 0 — no 25-point
bonus is awarded on this code path. -/
theorem c4_counterexample :
    (verifyAreaMap (some areaSample) formGood storeSample 9).1 =
      VerifyResult.success ∧
    (verifyAreaMap (some areaSample) formGood storeSample 9).2.userStats.points = 0 ∧
    storeSample.userStats.points = 0 ∧
    (0 : ℕ) ≠ 0 + 25 := by
  refine ⟨rfl, rfl, rfl, by decide⟩

/-- C4 (amended): only the rewards-file `verifyArea` variant awards the
25-point bonus and recomputes the level on success; the `map.tsx`
variant never modifies the stats record at all. -/
theorem c4_award_variants (area : ProblemArea) (form : VerificationForm)
    (st : StoreState) (now : ℕ)
    (hkey : jsTrim form.secretKey ∈ AUTHORITY_SECRET_KEYS)
    (hname : jsTrim form.officialName ≠ "") (hdept : jsTrim form.department ≠ "") :
    (verifyAreaRewards (some area) form st now).1 = VerifyResult.success ∧
    (verifyAreaRewards (some area) form st now).2.userStats.points =
      st.userStats.points + 25 ∧
    (verifyAreaRewards (some area) form st now).2.userStats.level =
      (st.userStats.points + 25) / 500 + 1 ∧
    (verifyAreaMap (some area) form st now).2.userStats = st.userStats := by
  have hne : jsTrim form.secretKey ≠ "" := by
    intro h
    rw [h] at hkey
    exact absurd hkey (by decide)
  refine ⟨?_, ?_, ?_, ?_⟩ <;>
    simp [verifyAreaRewards, verifyAreaMap, hne, hname, hdept, hkey,
      awardReporterPoints]

/-- C4 witness: the amended statement instantiated on a concrete
successful verification. -/
theorem c4_award_variants_witness :
    (jsTrim formGood.secretKey ∈ AUTHORITY_SECRET_KEYS ∧
     jsTrim formGood.officialName ≠ "" ∧ jsTrim formGood.department ≠ "") ∧
    ((verifyAreaRewards (some areaSample) formGood storeSample 9).1 =
       VerifyResult.success ∧
     (verifyAreaRewards (some areaSample) formGood storeSample 9).2.userStats.points =
       storeSample.userStats.points + 25 ∧
     (verifyAreaRewards (some areaSample) formGood storeSample 9).2.userStats.level =
       (storeSample.userStats.points + 25) / 500 + 1 ∧
     (verifyAreaMap (some areaSample) formGood storeSample 9).2.userStats =
       storeSample.userStats) :=
  ⟨⟨by decide, by decide, by decide⟩,
   c4_award_variants areaSample formGood storeSample 9 (by decide) (by decide)
     (by decide)⟩

/-- C5 counterexample: starting from a consistent record at 500 points
(level 2), redeeming a 400-point reward leaves level at 2 while
`floor(100/500)+1 = 1`, so the level invariant is broken right after a
redemption. -/
theorem c5_counterexample :
    (claimReward st500 [rewardT] rewardT).map (fun p => (p.1.points, p.1.level)) =
      some (100, 2) ∧
    (100 : ℕ) / 500 + 1 ≠ 2 := by
  refine ⟨rfl, by decide⟩

/-- C5 (amended): the report-submission award and the verification bonus
re-establish `level = floor(points/500)+1`, but the achievement-bonus
and reward-redemption paths leave `level` unchanged while moving
`points`, so the invariant is not maintained there. -/
theorem c5_level_recompute_paths (st : UserStats) (delta : ℕ)
    (rewards : List Reward) (rwd : Reward) :
    (awardPoints st delta).level = (awardPoints st delta).points / 500 + 1 ∧
    (awardReporterPoints st).level = (awardReporterPoints st).points / 500 + 1 ∧
    (checkForNewAchievements st).level = st.level ∧
    ((claimReward st rewards rwd).map fun p => p.1.level).getD st.level = st.level := by
  refine ⟨rfl, rfl, ?_, ?_⟩
  · unfold checkForNewAchievements
    split <;> rfl
  · unfold claimReward
    split <;> simp

/-- C6 counterexample: the report-submission award of 50 points moves
`points` to 50 but leaves `totalEarned` at 0 instead of incrementing it
by the same delta. -/
theorem c6_counterexample :
    (awardPoints statsZero 50).points = 50 ∧
    (awardPoints statsZero 50).totalEarned = 0 ∧
    (0 : ℕ) ≠ 0 + 50 := by
  refine ⟨rfl, rfl, by decide⟩

/-- C6 (amended): only the achievement bonus moves `points` and
`totalEarned` in lockstep; the report-submission and verification awards
increment `points` (and recompute level) while leaving `totalEarned`
unchanged. -/
theorem c6_totalEarned_lockstep (st : UserStats) (delta : ℕ) :
    (awardPoints st delta).points = st.points + delta ∧
    (awardPoints st delta).totalEarned = st.totalEarned ∧
    (awardReporterPoints st).points = st.points + 25 ∧
    (awardReporterPoints st).totalEarned = st.totalEarned ∧
    (checkForNewAchievements st).points = st.points + achievementBonus st ∧
    (checkForNewAchievements st).totalEarned = st.totalEarned + achievementBonus st := by
  refine ⟨rfl, rfl, rfl, rfl, ?_, ?_⟩ <;>
  · unfold checkForNewAchievements
    split
    · next hEmpty => simp [achievementBonus, hEmpty]
    · rfl

/-- C7 counterexample: for the single mild symptom `rash` the claimed
algorithm yields risk level low (average weight 1 < 3/2), but the code
fallback returns its constant assessment with risk level medium. -/
theorem c7_counterexample :
    (callOpenAIFallback ["rash"] q0).riskLevel = RiskLevel.medium ∧
    spec_riskLevel ["rash"] = RiskLevel.low ∧
    RiskLevel.medium ≠ RiskLevel.low := by
  refine ⟨rfl, ?_, by decide⟩
  have h1 : ¬ ((1 : ℚ) ≥ 5/2) := by norm_num
  have h2 : ¬ ((1 : ℚ) ≥ 3/2) := by norm_num
  simp [spec_riskLevel, spec_symptomWeight, spec_severityWeight, SYMPTOMS_LIST,
    List.lookup, h1, h2]

/-- C7 (amended): the fallback is one constant assessment — identical
for every symptom selection and questionnaire — with risk level medium
and the two fixed gastrointestinal conditions; no match-score ranking
over a disease knowledge base is computed. -/
theorem c7_fallback_constant (symptoms symptoms2 : List String)
    (q q2 : SymptomQuestionnaire) :
    callOpenAIFallback symptoms q = callOpenAIFallback symptoms2 q2 ∧
    (callOpenAIFallback symptoms q).riskLevel = RiskLevel.medium ∧
    (callOpenAIFallback symptoms q).possibleConditions.map FallbackCondition.name =
      ["Water-borne Gastrointestinal Infection", "Acute Gastroenteritis"] :=
  ⟨rfl, rfl, rfl⟩

/-- C8 counterexample: with the submission counter jumped straight from
0 to 2, the `rewards.tsx` achievement pass — whose `first_report`
predicate is `reportsSubmitted >= 1`, not `== 1` — unlocks
`first_report` after all, refuting "never unlocked". -/
theorem c8_counterexample :
    stats2.reportsSubmitted = 2 ∧
    isUnlockedIn stats2.achievements "first_report" = false ∧
    isUnlockedIn (checkForNewAchievements stats2).achievements "first_report" = true := by
  refine ⟨rfl, rfl, by decide⟩

/-- C8 (amended): under the database-backed `checkReportAchievements`
path the equality predicate means a count other than exactly 1 never
unlocks `first_report`; but the local `checkForNewAchievements` path
uses a `>= 1` threshold and does unlock it for any stats record with
`reportsSubmitted ≥ 1` where it is still locked. -/
theorem c8_equality_vs_threshold (n : ℕ) (unlocked : List String) (st : UserStats)
    (hn : n ≠ 1) (hrs : 1 ≤ st.reportsSubmitted)
    (hlocked : isUnlockedIn st.achievements "first_report" = false) :
    "first_report" ∉ checkReportAchievements n unlocked ∧
    isUnlockedIn (checkForNewAchievements st).achievements "first_report" = true := by
  have hcond : (!isUnlockedIn st.achievements "first_report" &&
      shouldUnlock st "first_report") = true := by
    simp [hlocked, shouldUnlock, hrs]
  have hmemN : (⟨"first_report", 50⟩ : AchievementDef) ∈ newAchievements st := by
    unfold newAchievements
    exact List.mem_filter.2 ⟨by simp [ACHIEVEMENTS], hcond⟩
  have hne : newAchievements st ≠ [] := by
    intro hEmpty
    rw [hEmpty] at hmemN
    simp at hmemN
  constructor
  · unfold checkReportAchievements
    simp [hn]
  · unfold checkForNewAchievements
    rw [if_neg hne]
    unfold isUnlockedIn
    simp only [ACHIEVEMENTS, List.map_cons, List.lookup_cons]
    have hany : ((newAchievements st).any fun nn => nn.id = "first_report") = true :=
      List.any_eq_true.2 ⟨⟨"first_report", 50⟩, hmemN, by simp⟩
    simp [hany]

/-- C8 witness: the amended statement instantiated at count 2 with a
fresh unlock set. -/
theorem c8_equality_vs_threshold_witness :
    ((2 : ℕ) ≠ 1 ∧ 1 ≤ stats2.reportsSubmitted ∧
     isUnlockedIn stats2.achievements "first_report" = false) ∧
    ("first_report" ∉ checkReportAchievements 2 [] ∧
     isUnlockedIn (checkForNewAchievements stats2).achievements "first_report" = true) :=
  ⟨⟨by decide, by decide, by decide⟩,
   c8_equality_vs_threshold 2 [] stats2 (by decide) (by decide) (by decide)⟩

/-- C10: every successful submission awards exactly
`calculatePoints severity` points, stores the same value as the report's
`reporterPoints`, and increments `reportsSubmitted` by exactly 1; the
severity table is critical 100, high 75, medium 50, low 25. -/
theorem c10_submission_points (cat : RType) (l : Location)
    (titleField descriptionField : String) (sev : Severity)
    (photos : List String) (now : ℕ) (reports : List Report) (st : UserStats)
    (r : Report) (reports2 : List Report) (st2 : UserStats)
    (h : submitReport (some cat) titleField descriptionField sev photos (some l)
      now reports st = some (r, reports2, st2)) :
    r.reporterPoints = calculatePoints sev ∧
    st2.reportsSubmitted = st.reportsSubmitted + 1 ∧
    st2.points = st.points + calculatePoints sev ∧
    calculatePoints Severity.critical = 100 ∧
    calculatePoints Severity.high = 75 ∧
    calculatePoints Severity.medium = 50 ∧
    calculatePoints Severity.low = 25 := by
  simp only [submitReport] at h
  by_cases hval : jsTrim titleField = "" ∨ jsTrim descriptionField = ""
  · rw [if_pos hval] at h
    exact absurd h (by simp)
  · rw [if_neg hval] at h
    injection h with htup
    injection htup with h1 htup2
    injection htup2 with h2 h3
    subst h1
    subst h2
    subst h3
    exact ⟨rfl, rfl, rfl, rfl, rfl, rfl, rfl⟩

/-- C10 witness: a concrete successful low-severity submission. -/
theorem c10_submission_points_witness :
    (submitReport (some RType.quality) "Bad taste" "Cloudy water" Severity.low []
       (some { latitude := 286139/10000, longitude := 77209/1000 }) 42 [] statsZero =
      some (subR, [subR], awardPoints statsZero 25)) ∧
    (subR.reporterPoints = calculatePoints Severity.low ∧
     (awardPoints statsZero 25).reportsSubmitted = statsZero.reportsSubmitted + 1 ∧
     (awardPoints statsZero 25).points = statsZero.points + calculatePoints Severity.low ∧
     calculatePoints Severity.critical = 100 ∧
     calculatePoints Severity.high = 75 ∧
     calculatePoints Severity.medium = 50 ∧
     calculatePoints Severity.low = 25) := by
  have hsub : submitReport (some RType.quality) "Bad taste" "Cloudy water"
      Severity.low [] (some { latitude := 286139/10000, longitude := 77209/1000 })
      42 [] statsZero = some (subR, [subR], awardPoints statsZero 25) := rfl
  exact ⟨hsub,
    c10_submission_points RType.quality
      { latitude := 286139/10000, longitude := 77209/1000 }
      "Bad taste" "Cloudy water" Severity.low [] 42 [] statsZero subR [subR]
      (awardPoints statsZero 25) hsub⟩

end Aquelis
